import Mathlib

/-!
# melody-magnet: verification of the synchronization core

A shallow embedding of the jwest/melody-magnet synchronization core
(`src/main.rs`, `src/infrastructure/registry.rs`, `src/backend/mod.rs`,
`src/backend/tidal/mod.rs`, `src/backend/tidal/session.rs`,
`src/library/mod.rs`) together with theorems settling the specification
claims about it.

The ledger-level model (`Ledger`, `request_favourite_album`,
`mark_album_as_processing`, `mark_album_as_synchronized`,
`get_next_to_synchronize_and_mark_as_processing`, `phase2_discover`,
`drain_album`) is the error-free functional semantics of the SQLite-backed
registry and of the orchestration loop in `sync_favourites`.  A separate
outcome-level model (`is_album_exists_sql`, `count_by_status_sql`,
`get_next_sql`, ...) makes the treatment of storage failures explicit:
each registry operation is parameterised by the outcome of its underlying
SQLite call, and `Option` distinguishes a normal return (`some`) from a
Rust panic (`none`).
-/

namespace MelodyMagnet

/-! ## Data model (`src/backend/mod.rs`) -/

/-- `Artist` from `src/backend/mod.rs`: remote artist id and display name. -/
structure Artist where
  id : String
  name : String
deriving DecidableEq, Repr

/-- `Album` from `src/backend/mod.rs`.  `release_date` is a `NaiveDate` in the
source; it is abstracted to the day number, which no claim inspects. -/
structure Album where
  id : String
  artist : Artist
  title : String
  releaseDate : Int
  numberOfVolumes : Nat
  coverUrl : Option String
  numberOfTracks : Nat
deriving DecidableEq, Repr

/-- `Track` from `src/backend/mod.rs`: the owning album is stored by value,
a snapshot taken at fetch time. -/
structure Track where
  id : String
  title : String
  album : Album
  trackNumber : Nat
  volumeNumber : Nat
deriving DecidableEq, Repr

/-! ## Sync registry, error-free semantics (`src/infrastructure/registry.rs`)

The `album_state` table is modelled as a list of rows in rowid (insertion)
order, which is the order SQLite serves an unordered `SELECT ... LIMIT 1`
from this table.  The `details` column holds the serialized album snapshot;
it is modelled by the `Album` value it deserializes to. -/

/-- `SynchronizedState` from `src/infrastructure/registry.rs:28-33`. -/
inductive SynchronizedState where
  | Requested
  | Processing
  | Synchronized
deriving DecidableEq, Repr

/-- One row of the `album_state` table: `id`, `state` and the frozen
`details` snapshot (the columns the core reads back). -/
structure SyncRecord where
  id : String
  state : SynchronizedState
  details : Album
deriving DecidableEq, Repr

/-- The `album_state` table in insertion (rowid) order. -/
abbrev Ledger := List SyncRecord

/-- `request_favourite_album` (`registry.rs:82-97`): INSERT a new row with
state `Requested`, `id` = the album's id and `details` = the serialized
album, at the end of the table. -/
def request_favourite_album (l : Ledger) (a : Album) : Ledger :=
  l ++ [{ id := a.id, state := .Requested, details := a }]

/-- `is_album_exists` (`registry.rs:99-107`), error-free case: a row for the
album's id exists. -/
def is_album_exists (l : Ledger) (a : Album) : Bool :=
  l.any (fun r => r.id == a.id)

/-- `mark_album_as_processing` (`registry.rs:122-133`): UPDATE every row whose
`id` matches to state `Processing`. -/
def mark_album_as_processing (l : Ledger) (id : String) : Ledger :=
  l.map (fun r => if r.id == id then { r with state := .Processing } else r)

/-- `mark_album_as_synchronized` (`registry.rs:109-120`): UPDATE every row
whose `id` matches to state `Synchronized`. -/
def mark_album_as_synchronized (l : Ledger) (id : String) : Ledger :=
  l.map (fun r => if r.id == id then { r with state := .Synchronized } else r)

/-- `get_next_to_synchronize_and_mark_as_processing` (`registry.rs:135-147`),
error-free case: `SELECT details FROM album_state WHERE state = 'Requested'
LIMIT 1` picks the first `Requested` row in rowid order; when a row is found
its deserialized snapshot is returned and `mark_album_as_processing` is run
on the id taken from that snapshot. -/
def get_next_to_synchronize_and_mark_as_processing (l : Ledger) :
    Option Album × Ledger :=
  match l.find? (fun r => r.state == .Requested) with
  | none => (none, l)
  | some r => (some r.details, mark_album_as_processing l r.details.id)

/-- `count_by_status` (`registry.rs:70-78`), error-free case. -/
def count_by_status (l : Ledger) (s : SynchronizedState) : Nat :=
  (l.filter (fun r => r.state == s)).length

/-- Phase 2 discovery (`main.rs:85-95`, Ok branch), error-free case: for each
favourite album, insert a `Requested` row unless a row for its id already
exists.  The registry is consulted again after each insertion, exactly as the
loop does. -/
def phase2_discover (l : Ledger) (favourites : List Album) : Ledger :=
  favourites.foldl
    (fun acc a => if is_album_exists acc a then acc else request_favourite_album acc a)
    l

/-- Well-formedness of a reachable ledger: row ids are unique (enforced by
the PRIMARY KEY) and each row's snapshot carries the row's id (rows are only
created by `request_favourite_album`). -/
def WfLedger (l : Ledger) : Prop :=
  (l.map (fun r => r.id)).Nodup ∧ ∀ r ∈ l, r.details.id = r.id

/-! ## Phase 1 drain (`src/main.rs:53-81`)

The body of the drain loop for one claimed album, with the collaborators'
behaviour supplied as an environment and the remote/filesystem side effects
recorded as a list of events. -/

/-- Behaviour of the collaborators during one drain step:
`isAlbumExistsInLibrary` is `library.is_album_exists`
(`src/library/mod.rs:19-21`), `albumTracks` the tracklist returned by
`get_album_tracks`, `downloadTrackOk` whether `download_track` returns
`Ok`, and `saveTrackOk` whether `library.save_track` returns `Ok` (its
result is only logged by the loop). -/
structure DrainEnv where
  isAlbumExistsInLibrary : Album → Bool
  albumTracks : Album → List Track
  downloadTrackOk : Track → Bool
  saveTrackOk : Track → Bool

/-- Remote and filesystem side effects of a drain step, in order. -/
inductive DrainEvent where
  | fetchTracks (albumId : String)
  | downloadCover (albumId : String)
  | saveCover (albumId : String)
  | downloadTrack (trackId : String)
  | saveTrack (trackId : String)
deriving DecidableEq, Repr

/-- One iteration of the per-track loop (`main.rs:69-79`): attempt
`download_track`; on success, attempt `library.save_track` (failure only
logged) and then `mark_album_as_synchronized`; on failure, continue. -/
def drain_track_step (env : DrainEnv) (albumId : String)
    (acc : Ledger × List DrainEvent) (t : Track) : Ledger × List DrainEvent :=
  if env.downloadTrackOk t then
    (mark_album_as_synchronized acc.1 albumId,
      acc.2 ++ [DrainEvent.downloadTrack t.id, DrainEvent.saveTrack t.id])
  else
    (acc.1, acc.2 ++ [DrainEvent.downloadTrack t.id])

/-- The drain-loop body for one claimed album (`main.rs:56-80`): if the
library already holds the album, do nothing at all; otherwise mark it
`Processing` again, fetch the tracklist, download and save the cover when a
cover url is present, then run the per-track loop. -/
def drain_album (env : DrainEnv) (album : Album) (l : Ledger) :
    Ledger × List DrainEvent :=
  if env.isAlbumExistsInLibrary album then (l, [])
  else
    let l1 := mark_album_as_processing l album.id
    let coverEvs :=
      if album.coverUrl.isSome then
        [DrainEvent.downloadCover album.id, DrainEvent.saveCover album.id]
      else []
    (env.albumTracks album).foldl (drain_track_step env album.id)
      (l1, DrainEvent.fetchTracks album.id :: coverEvs)

/-! ## Phase 2 with recovery (`src/main.rs:85-101`)

The `match` on `get_favorite_albums()`: on `Ok`, discovery; on `Err`,
`refresh_token().unwrap()` followed by `session_store.save`.
`Tidal::refresh_token` (`src/backend/tidal/mod.rs:26-30`) itself unwraps
the session refresh, so a failed refresh is a panic; `none` models that
panic, `some` a normal return. -/

/-- `BackendError` from `src/backend/mod.rs:17-23`. -/
inductive BackendError where
  | disconnect
  | requestError
deriving DecidableEq, Repr

/-- The observable actions of the Phase 2 branch of `sync_favourites`. -/
inductive RunEvent where
  | fetchFavourites
  | refreshToken
  | saveSession
deriving DecidableEq, Repr

/-- Phase 2 of `sync_favourites` (`main.rs:85-101`): one favourites fetch,
then either discovery (Ok) or the recovery path (Err).  `refreshOk` is
whether `TidalSession::refresh_token` succeeds; on the Err branch with a
failing refresh the run panics (`none`), because of the `unwrap` inside
`Tidal::refresh_token` (`tidal/mod.rs:27`). -/
def phase2_sync (l : Ledger) (favResult : Except BackendError (List Album))
    (refreshOk : Bool) : Option (Ledger × List RunEvent) :=
  match favResult with
  | .ok favs => some (phase2_discover l favs, [RunEvent.fetchFavourites])
  | .error _ =>
      if refreshOk then
        some (l, [RunEvent.fetchFavourites, RunEvent.refreshToken,
          RunEvent.saveSession])
      else none

/-! ## Favorites pagination (`src/backend/tidal/mod.rs:33-132`,
`src/backend/mod.rs:122-137`)

`get_favorite_albums` iterates `Pagination` pages: each page fetch asks for
`limit` items at the current `offset`, the offset advances by `limit`, and
the loop breaks when a page's item list is empty.  The remote collection is
modelled as the list of albums the service yields, in source order; a page
fetch at `offset` returns the next `limit` of them.  The loop is written
with fuel (one unit per page fetch); `remote.length + 1` units are enough,
as the adequacy lemma shows. -/

/-- `FAVOURITE_ITEMS_PER_PAGE` (`tidal/mod.rs:11`). -/
def FAVOURITE_ITEMS_PER_PAGE : Nat := 100

/-- One page fetch: items `offset, ..., offset + limit - 1` of the remote
collection (`session.get_favorite_albums(page.limit, page.offset)`). -/
def fetchFavoritesPage (remote : List Album) (limit offset : Nat) : List Album :=
  (remote.drop offset).take limit

/-- The `for page in pagination` loop of `get_favorite_albums`
(`tidal/mod.rs:37-129`): fetch the page at `offset`; if empty, stop;
otherwise keep its items and continue at `offset + limit`.  Returns the
aggregated albums and the number of page fetches performed. -/
def get_favorite_albums_loop (remote : List Album) (limit : Nat) :
    Nat → Nat → List Album × Nat
  | _, 0 => ([], 0)
  | offset, fuel + 1 =>
      let page := fetchFavoritesPage remote limit offset
      if page.isEmpty then ([], 1)
      else
        let rest := get_favorite_albums_loop remote limit (offset + limit) fuel
        (page ++ rest.1, rest.2 + 1)

/-- `get_favorite_albums` (`tidal/mod.rs:33-132`): run the pagination loop
from offset 0. -/
def get_favorite_albums (remote : List Album) (limit : Nat) : List Album × Nat :=
  get_favorite_albums_loop remote limit 0 (remote.length + 1)

/-- Number of page fetches the loop performs over `m` remaining items with
page size `p`: one fetch per full or partial page, plus the final empty
page. -/
def numPageFetches (p m : Nat) : Nat :=
  m / p + 1 + (if m % p = 0 then 0 else 1)

/-! ## Track download retry (`src/backend/tidal/mod.rs:230-239`)

`download_track` runs `for _ in 1..5 { ... }`: at most four calls to
`session.get_track_bytes`, returning the first success, and one
`BackendError::RequestError` after the fourth failure.  The underlying
fetch behaviour is a function from the attempt index to a result. -/

/-- Raw track bytes. -/
abbrev Bytes := List Nat

/-- The retry loop of `download_track`, counting down the remaining
attempts (`n`) while the attempt index (`i`) advances. -/
def download_track_go (fetch : Nat → Except Unit Bytes) :
    Nat → Nat → Except BackendError Bytes
  | _, 0 => .error BackendError.requestError
  | i, n + 1 =>
      match fetch i with
      | .ok b => .ok b
      | .error _ => download_track_go fetch (i + 1) n

/-- `download_track` (`tidal/mod.rs:230-239`): four attempts
(`for _ in 1..5`), then a single `RequestError`. -/
def download_track (fetch : Nat → Except Unit Bytes) : Except BackendError Bytes :=
  download_track_go fetch 0 4

/-! ## Session handshake (`src/backend/tidal/session.rs`)

`TidalSession::setup` requests one device authorization (`login_link`) and
then calls `DeviceAuthorization::wait_for_link`, which polls the token
endpoint up to 60 times and, when all 60 polls fail, recursively calls
itself — on the same `DeviceAuthorization`, hence with the same device code
and verification link.  The network actions are recorded as events;
`pollOk n` is whether the `n`-th token poll overall succeeds, and `fuel`
bounds the number of 60-poll rounds (the source recursion is unbounded). -/

/-- `DeviceAuthorization` (`session.rs:58-61`). -/
structure DeviceAuthorization where
  verification_uri_complete : String
  device_code : String
deriving DecidableEq, Repr

/-- Network actions of the handshake: one device-authorization request
(`login_link`) or one poll of the token endpoint with a device code. -/
inductive SessionEvent where
  | deviceAuthRequest
  | tokenPoll (device_code : String)
deriving DecidableEq, Repr

/-- The `for _ in 0..60` polling loop of `wait_for_link`
(`session.rs:81-102`): up to `n` polls starting at overall attempt `start`;
stops at the first success. Returns the polls performed and whether one
succeeded. -/
def poll_loop (auth : DeviceAuthorization) (pollOk : Nat → Bool) :
    Nat → Nat → List SessionEvent × Bool
  | _, 0 => ([], false)
  | start, n + 1 =>
      if pollOk start then ([SessionEvent.tokenPoll auth.device_code], true)
      else
        let rest := poll_loop auth pollOk (start + 1) n
        (SessionEvent.tokenPoll auth.device_code :: rest.1, rest.2)

/-- `wait_for_link` (`session.rs:78-105`): run the 60-poll loop; on success
return; when all 60 polls fail, recurse into `self.wait_for_link()` — the
same device authorization. `fuel` bounds the rounds of the (unbounded)
source recursion. -/
def wait_for_link (auth : DeviceAuthorization) (pollOk : Nat → Bool) :
    Nat → Nat → List SessionEvent × Bool
  | 0, _ => ([], false)
  | fuel + 1, start =>
      match poll_loop auth pollOk start 60 with
      | (evs, true) => (evs, true)
      | (evs, false) =>
          let rest := wait_for_link auth pollOk fuel (start + 60)
          (evs ++ rest.1, rest.2)

/-- `TidalSession::setup` (`session.rs:123-129`): one `login_link` device
authorization, then `wait_for_link` on it. -/
def setup (auth : DeviceAuthorization) (pollOk : Nat → Bool) (fuel : Nat) :
    List SessionEvent × Bool :=
  let rest := wait_for_link auth pollOk fuel 0
  (SessionEvent.deviceAuthRequest :: rest.1, rest.2)

/-! ## Tidal item parsing (`src/backend/tidal/mod.rs:104-126, 213-223`)

Both the favorites-page loop and the tracklist loop guard each item with
`item["adSupportedStreamReady"].as_bool().is_some_and(|ready| ready)` and
silently skip items that fail the guard.  The JSON payload of an item is
modelled by the fields the parser reads. -/

/-- `as_bool().is_some_and(|ready| ready)`: true only on `Some(true)`. -/
def adReady (flag : Option Bool) : Bool :=
  match flag with
  | some b => b
  | none => false

/-- The fields of one favorites-page item read by `get_favorite_albums`
(`tidal/mod.rs:104-126`). -/
structure TidalAlbumItem where
  adSupportedStreamReady : Option Bool
  id : Int
  artistId : Int
  artistName : String
  title : String
  releaseDate : Int
  numberOfVolumes : Int
  numberOfTracks : Int
  cover : Option String
deriving DecidableEq, Repr

/-- Album built from one included favorites item (`tidal/mod.rs:105-125`):
ids printed to strings, cover id expanded to the 640x640 resources url. -/
def parse_album_item (it : TidalAlbumItem) : Album :=
  { id := toString it.id
    artist := { id := toString it.artistId, name := it.artistName }
    title := it.title
    releaseDate := it.releaseDate
    numberOfVolumes := it.numberOfVolumes.toNat
    coverUrl := it.cover.map (fun cid =>
      "https://resources.tidal.com/images/" ++ cid.replace "-" "/" ++ "/640x640.jpg")
    numberOfTracks := it.numberOfTracks.toNat }

/-- The favorites-page item loop (`tidal/mod.rs:52-127`): push the parsed
album when the `adSupportedStreamReady` guard passes, silently skip the
item otherwise. -/
def parse_favorite_page : List TidalAlbumItem → List Album
  | [] => []
  | it :: rest =>
      if adReady it.adSupportedStreamReady then
        parse_album_item it :: parse_favorite_page rest
      else parse_favorite_page rest

/-- The fields of one tracklist item read by `get_album_tracks`
(`tidal/mod.rs:213-223`); `title` keeps serde's `Option` because the source
uses `unwrap_or_default`. -/
structure TidalTrackItem where
  adSupportedStreamReady : Option Bool
  id : Int
  title : Option String
  trackNumber : Nat
  volumeNumber : Nat
deriving DecidableEq, Repr

/-- Track built from one included tracklist item (`tidal/mod.rs:214-220`);
the owning album is the claimed album, cloned by value. -/
def parse_track_item (album : Album) (it : TidalTrackItem) : Track :=
  { id := toString it.id
    title := it.title.getD ""
    album := album
    trackNumber := it.trackNumber
    volumeNumber := it.volumeNumber }

/-- The tracklist item loop of `get_album_tracks` (`tidal/mod.rs:139-225`):
push the parsed track when the `adSupportedStreamReady` guard passes,
silently skip the item otherwise. -/
def get_album_tracks (album : Album) : List TidalTrackItem → List Track
  | [] => []
  | it :: rest =>
      if adReady it.adSupportedStreamReady then
        parse_track_item album it :: get_album_tracks album rest
      else get_album_tracks album rest

/-! ## Registry operations at the storage-outcome level
(`src/infrastructure/registry.rs`)

Each operation is parameterised by the outcome of its underlying SQLite
call: `ok` a row/value, `noRows` rusqlite's `QueryReturnedNoRows`, `fail`
any other storage-layer error.  The result type `Option (Except ...)`
separates a normal return (`some`) from a Rust panic (`none`). -/

/-- A storage-layer failure other than "no matching row". -/
inductive StorageErr where
  | storageError
deriving DecidableEq, Repr

/-- Outcome of one underlying SQLite query. -/
inductive QueryOutcome (α : Type) where
  | ok (a : α)
  | noRows
  | fail
deriving DecidableEq, Repr

/-- `is_album_exists` (`registry.rs:99-107`): `query_row(...)` mapped to
`true`, then `.unwrap_or(false)` — which turns `noRows` AND every other
storage error into `Ok(false)`. -/
def is_album_exists_sql (q : QueryOutcome Unit) : Except StorageErr Bool :=
  match q with
  | .ok _ => .ok true
  | .noRows => .ok false
  | .fail => .ok false

/-- `count_by_status` (`registry.rs:70-78`): `query_row(...).unwrap_or(0)` —
`noRows` and every other storage error become `Ok(0)`. -/
def count_by_status_sql (q : QueryOutcome Nat) : Except StorageErr Nat :=
  match q with
  | .ok n => .ok n
  | .noRows => .ok 0
  | .fail => .ok 0

/-- `mark_album_as_synchronized` / `mark_album_as_processing`
(`registry.rs:109-133`): `connection.execute(...)?` — a storage error is
propagated with `?`. -/
def mark_album_state_sql (exec : Except StorageErr Nat) : Except StorageErr Unit :=
  match exec with
  | .ok _ => .ok ()
  | .error e => .error e

/-- `request_favourite_album` (`registry.rs:82-97`):
`connection.execute(...)?` — a storage error is propagated with `?`. -/
def request_favourite_album_sql (exec : Except StorageErr Nat) :
    Except StorageErr Unit :=
  match exec with
  | .ok _ => .ok ()
  | .error e => .error e

/-- `get_next_to_synchronize_and_mark_as_processing` (`registry.rs:135-147`):
`prepare(...)?` propagates; `query_row(...).map(Some).unwrap_or(None)` turns
`noRows` AND every other query error into `Ok(None)`; inside the row
closure `serde_json::from_str(...).unwrap()` panics on a snapshot that does
not deserialize (`parse details = none`); the follow-up
`mark_album_as_processing(...).expect(...)` panics on a mark failure. -/
def get_next_sql (prepare : Except StorageErr Unit) (q : QueryOutcome String)
    (parse : String → Option Album) (mark : Except StorageErr Unit) :
    Option (Except StorageErr (Option Album)) :=
  match prepare with
  | .error e => some (.error e)
  | .ok _ =>
      match q with
      | .noRows => some (.ok none)
      | .fail => some (.ok none)
      | .ok details =>
          match parse details with
          | none => none
          | some album =>
              match mark with
              | .error _ => none
              | .ok _ => some (.ok (some album))

/-! ## Concrete sample data -/

/-- A concrete album used to exercise the model. -/
def albumA : Album :=
  { id := "1", artist := { id := "10", name := "ArtistA" }, title := "AlbumA",
    releaseDate := 0, numberOfVolumes := 1, coverUrl := none, numberOfTracks := 1 }

/-- A second concrete album with a distinct id. -/
def albumB : Album :=
  { id := "2", artist := { id := "20", name := "ArtistB" }, title := "AlbumB",
    releaseDate := 0, numberOfVolumes := 1, coverUrl := none, numberOfTracks := 1 }

/-- The single track of `albumA`. -/
def trackA : Track :=
  { id := "100", title := "TrackA", album := albumA, trackNumber := 1,
    volumeNumber := 1 }

/-- A `Requested` ledger row for `albumA`, as `request_favourite_album`
creates it. -/
def recA_R : SyncRecord := { id := "1", state := .Requested, details := albumA }

/-- The row for `albumA` after a claim marked it `Processing`. -/
def recA_P : SyncRecord := { id := "1", state := .Processing, details := albumA }

/-- Drain environment: album absent from the library, one track, every
track download fails. -/
def envAllFail : DrainEnv :=
  { isAlbumExistsInLibrary := fun _ => false
    albumTracks := fun _ => [trackA]
    downloadTrackOk := fun _ => false
    saveTrackOk := fun _ => true }

/-- Drain environment: album absent from the library, one track, every
track download succeeds. -/
def envOneOk : DrainEnv :=
  { isAlbumExistsInLibrary := fun _ => false
    albumTracks := fun _ => [trackA]
    downloadTrackOk := fun _ => true
    saveTrackOk := fun _ => true }

/-- Drain environment: the library reports every album as already
materialized. -/
def envMat : DrainEnv :=
  { isAlbumExistsInLibrary := fun _ => true
    albumTracks := fun _ => [trackA]
    downloadTrackOk := fun _ => true
    saveTrackOk := fun _ => true }

/-- A concrete device authorization issued by `login_link`. -/
def auth0 : DeviceAuthorization :=
  { verification_uri_complete := "link.tidal.com/AAAAA", device_code := "dc-0" }

/-! ## Theorems -/

/-- C2: evaluation of the registry operations at failing storage outcomes.
A storage-layer failure in the exists check is returned as the normal
result `Ok(false)`; in stats counting as `Ok(0)`; in the claim row query as
`Ok(None)`; and a snapshot that fails to deserialize on claim panics
(`none`) instead of returning a `StorageError`.  This contradicts the
claim, which reflects the spec's stated intent; the code's
`unwrap_or(false)` / `unwrap_or(0)` / `unwrap_or(None)` / `unwrap()` are
the slips. -/
theorem C2_storage_error_eval :
    is_album_exists_sql QueryOutcome.fail = Except.ok false
    ∧ count_by_status_sql QueryOutcome.fail = Except.ok 0
    ∧ get_next_sql (Except.ok ()) (QueryOutcome.ok "corrupt")
        (fun _ => none) (Except.ok ()) = none
    ∧ get_next_sql (Except.ok ()) QueryOutcome.fail
        (fun _ => none) (Except.ok ()) = some (Except.ok none)
    ∧ (∀ e, mark_album_state_sql (Except.error e) = Except.error e)
    ∧ (∀ e, request_favourite_album_sql (Except.error e) = Except.error e)
    ∧ is_album_exists_sql QueryOutcome.noRows = Except.ok false := by
  refine ⟨rfl, rfl, rfl, rfl, fun e => rfl, fun e => rfl, rfl⟩

/-- C10: both the favorites-page parser and the tracklist parser keep
exactly the items whose `adSupportedStreamReady` flag is `Some(true)`, in
order, and silently drop every other item. -/
theorem C10_ad_supported_filter :
    (∀ items : List TidalAlbumItem,
      parse_favorite_page items =
        (items.filter (fun it => adReady it.adSupportedStreamReady)).map
          parse_album_item)
    ∧ ∀ (album : Album) (items : List TidalTrackItem),
        get_album_tracks album items =
          (items.filter (fun it => adReady it.adSupportedStreamReady)).map
            (parse_track_item album) := by
  constructor
  · intro items
    induction items with
    | nil => rfl
    | cons it rest ih =>
        by_cases h : adReady it.adSupportedStreamReady
        · simp [parse_favorite_page, h, ih]
        · simp [parse_favorite_page, h, ih]
  · intro album items
    induction items with
    | nil => rfl
    | cons it rest ih =>
        by_cases h : adReady it.adSupportedStreamReady
        · simp [get_album_tracks, h, ih]
        · simp [get_album_tracks, h, ih]

/-- Helper: the retry loop fails when every attempt it can reach fails. -/
theorem download_track_go_exhausts (fetch : Nat → Except Unit Bytes) (K : Nat)
    (hfail : ∀ j, j < K → fetch j = Except.error ()) :
    ∀ n i, i + n ≤ K →
      download_track_go fetch i n = Except.error BackendError.requestError := by
  intro n
  induction n with
  | zero => intro i _; rfl
  | succ n ih =>
      intro i hi
      have hfi : fetch i = Except.error () := hfail i (by omega)
      simp only [download_track_go, hfi]
      exact ih (i + 1) (by omega)

/-- Helper: the retry loop returns the first success when it is in reach. -/
theorem download_track_go_reaches (fetch : Nat → Except Unit Bytes)
    (K : Nat) (b : Bytes)
    (hfail : ∀ j, j < K → fetch j = Except.error ())
    (hsucc : fetch K = Except.ok b) :
    ∀ n i, i ≤ K → K < i + n → download_track_go fetch i n = Except.ok b := by
  intro n
  induction n with
  | zero => intro i h1 h2; omega
  | succ n ih =>
      intro i h1 h2
      rcases eq_or_lt_of_le h1 with rfl | hlt
      · simp only [download_track_go, hsucc]
      · have hfi : fetch i = Except.error () := hfail i hlt
        simp only [download_track_go, hfi]
        exact ih (i + 1) (by omega) (by omega)

/-- C6: against a fetch behaviour that fails on the first `K` attempts and
succeeds on attempt `K`, `download_track` returns the bytes iff `K < 4`;
against an always-failing fetch it returns exactly one
`BackendError::RequestError`. -/
theorem C6_download_retry (K : Nat) (b : Bytes) (fetch : Nat → Except Unit Bytes)
    (hfail : ∀ j, j < K → fetch j = Except.error ())
    (hsucc : fetch K = Except.ok b) :
    (download_track fetch = Except.ok b ↔ K < 4)
    ∧ ∀ g : Nat → Except Unit Bytes, (∀ i, g i = Except.error ()) →
        download_track g = Except.error BackendError.requestError := by
  constructor
  · constructor
    · intro hok
      by_contra h4
      have h4 : 4 ≤ K := by omega
      have := download_track_go_exhausts fetch K hfail 4 0 (by omega)
      rw [download_track] at hok
      rw [this] at hok
      exact absurd hok (by simp)
    · intro hK
      exact download_track_go_reaches fetch K b hfail hsucc 4 0 (by omega) (by omega)
  · intro g hg
    exact download_track_go_exhausts g 4 (fun j _ => hg j) 4 0 (by omega)

/-- C6 witness: a fetch failing twice then succeeding returns the bytes,
and an always-failing fetch returns `RequestError`. -/
theorem C6_download_retry_witness :
    (download_track (fun i => if i < 2 then Except.error () else Except.ok [7]) =
        Except.ok [7] ↔ 2 < 4)
    ∧ ∀ g : Nat → Except Unit Bytes, (∀ i, g i = Except.error ()) →
        download_track g = Except.error BackendError.requestError :=
  C6_download_retry 2 [7] (fun i => if i < 2 then Except.error () else Except.ok [7])
    (fun j hj => by simp [hj]) (by simp)

/-- C7 counterexample: when the favorites fetch fails and the session
refresh itself fails, the run panics (the `unwrap` inside
`Tidal::refresh_token`), so "does not crash the run" does not hold
unconditionally. -/
theorem C7_counterexample :
    phase2_sync [] (Except.error BackendError.requestError) false = none := rfl

/-- C7 amended: when the favorites fetch fails and the refresh succeeds,
the run performs exactly one favorites fetch (no retry), invokes the
refresh, persists the refreshed session, leaves the ledger untouched and
returns normally; a failing refresh, however, panics. -/
theorem C7_amended (l : Ledger) (e : BackendError) :
    phase2_sync l (Except.error e) true =
      some (l, [RunEvent.fetchFavourites, RunEvent.refreshToken,
        RunEvent.saveSession])
    ∧ ([RunEvent.fetchFavourites, RunEvent.refreshToken,
        RunEvent.saveSession].count RunEvent.fetchFavourites = 1)
    ∧ phase2_sync l (Except.error e) false = none := by
  refine ⟨rfl, by decide, rfl⟩

/-- Helper: consuming one nonempty page costs one fetch. -/
theorem numPageFetches_step (P M : Nat) (hP : 1 ≤ P) (hM : 1 ≤ M) :
    numPageFetches P (M - P) + 1 = numPageFetches P M := by
  rcases le_or_lt P M with h | h
  · obtain ⟨K, rfl⟩ : ∃ K, M = K + P := ⟨M - P, by omega⟩
    have hdiv : (K + P) / P = K / P + 1 := Nat.add_div_right K (by omega)
    have hmod : (K + P) % P = K % P := Nat.add_mod_right K P
    simp only [numPageFetches, Nat.add_sub_cancel, hdiv, hmod]
    omega
  · have h0 : M - P = 0 := by omega
    have hMne : M ≠ 0 := by omega
    have hdiv : M / P = 0 := Nat.div_eq_of_lt h
    have hmod : M % P = M := Nat.mod_eq_of_lt h
    simp [numPageFetches, h0, hdiv, hmod, hMne]

/-- Helper: with enough fuel, the pagination loop from `offset` aggregates
the remaining items in order and performs `numPageFetches` page fetches. -/
theorem get_favorite_albums_loop_spec (remote : List Album) (P : Nat)
    (hP : 1 ≤ P) :
    ∀ fuel offset, remote.length - offset < fuel →
      get_favorite_albums_loop remote P offset fuel =
        (remote.drop offset, numPageFetches P (remote.length - offset)) := by
  intro fuel
  induction fuel with
  | zero => intro offset h; omega
  | succ fuel ih =>
      intro offset h
      by_cases hoff : remote.length ≤ offset
      · have hdrop : remote.drop offset = [] := List.drop_eq_nil_of_le hoff
        have hM : remote.length - offset = 0 := by omega
        simp [get_favorite_albums_loop, fetchFavoritesPage, hdrop, hM,
          numPageFetches]
      · push_neg at hoff
        have hM : 1 ≤ remote.length - offset := by omega
        have hpagelen : ((remote.drop offset).take P).length = min P (remote.length - offset) := by
          simp [List.length_take, List.length_drop]
        have hne : ¬((remote.drop offset).take P).isEmpty := by
          rw [List.isEmpty_iff_length_eq_zero, hpagelen]
          omega
        have hrec := ih (offset + P) (by omega)
        simp only [get_favorite_albums_loop, fetchFavoritesPage, hne,
          if_false, Bool.false_eq_true, hrec]
        rw [Prod.mk.injEq]
        constructor
        · have h1 : remote.drop (offset + P) = (remote.drop offset).drop P := by
            rw [List.drop_drop, Nat.add_comm]
          rw [h1, List.take_append_drop]
        · have h2 : remote.length - (offset + P) = (remote.length - offset) - P := by
            omega
          rw [h2, numPageFetches_step P (remote.length - offset) hP hM]

/-- C5 amended: for any remote favorites collection and page size `P ≥ 1`,
the favorites fetch aggregates exactly the `N` remote entries in source
order and performs exactly `N / P + 1` page fetches when `P` divides `N`,
`N / P + 2` otherwise — that is `ceil(N/P) + 1`, which equals the claimed
`ceil((N+1)/P)` only when `P` divides `N`. -/
theorem C5_amended_pagination (remote : List Album) (P : Nat) (hP : 1 ≤ P) :
    get_favorite_albums remote P = (remote, numPageFetches P remote.length) := by
  have h := get_favorite_albums_loop_spec remote P hP (remote.length + 1) 0
    (by omega)
  simpa [get_favorite_albums] using h

/-- C5 counterexample: with one favorite album (`N = 1`) and page size
`P = 2`, the loop performs 2 page fetches (the singleton page, then the
empty page), while `ceil((N+1)/P) = (1+1+2-1)/2 = 1`. -/
theorem C5_counterexample :
    (get_favorite_albums [albumA] 2).2 = 2 ∧ (1 + 1 + 2 - 1) / 2 = 1 :=
  ⟨rfl, rfl⟩

/-- C5 witness: the amended statement evaluated at one album and page
size 2. -/
theorem C5_amended_witness :
    get_favorite_albums [albumA] 2 = ([albumA], numPageFetches 2 1) :=
  C5_amended_pagination [albumA] 2 (by omega)

/-- Helper: marking the same album synchronized twice is the same as
marking it once. -/
theorem mark_sync_idem (l : Ledger) (i : String) :
    mark_album_as_synchronized (mark_album_as_synchronized l i) i =
      mark_album_as_synchronized l i := by
  induction l with
  | nil => rfl
  | cons r rest ih =>
      simp only [mark_album_as_synchronized, List.map_cons] at ih ⊢
      refine congrArg₂ List.cons ?_ ih
      by_cases h : r.id == i <;> simp [h]

/-- Helper: the ledger component of the per-track loop — the album is
marked `Synchronized` exactly when some track download succeeded. -/
theorem drain_track_foldl_fst (env : DrainEnv) (aid : String) :
    ∀ (ts : List Track) (L : Ledger) (evs : List DrainEvent),
      (ts.foldl (drain_track_step env aid) (L, evs)).1 =
        if ts.any env.downloadTrackOk then mark_album_as_synchronized L aid
        else L := by
  intro ts
  induction ts with
  | nil => intro L evs; simp
  | cons t ts ih =>
      intro L evs
      by_cases h : env.downloadTrackOk t
      · simp only [List.foldl_cons, drain_track_step, h, if_true,
          List.any_cons, Bool.true_or, ih]
        by_cases h2 : ts.any env.downloadTrackOk
        · simp [h2, mark_sync_idem]
        · simp [h2]
      · simp only [List.foldl_cons, drain_track_step, h, if_false,
          Bool.false_eq_true, List.any_cons, ih]
        simp [h]

/-- Helper: after `mark_album_as_synchronized l i`, every row with id `i`
is `Synchronized`. -/
theorem mem_mark_sync_state (l : Ledger) (i : String) (r : SyncRecord)
    (hr : r ∈ mark_album_as_synchronized l i) (hid : r.id = i) :
    r.state = SynchronizedState.Synchronized := by
  rcases List.mem_map.mp hr with ⟨r0, _, hr0⟩
  by_cases h : r0.id == i
  · rw [if_pos h] at hr0
    rw [← hr0]
  · rw [if_neg h] at hr0
    subst hr0
    exact absurd (beq_iff_eq.mpr hid) h

/-- Helper: after `mark_album_as_processing l i`, every row with id `i`
is `Processing`. -/
theorem mem_mark_proc_state (l : Ledger) (i : String) (r : SyncRecord)
    (hr : r ∈ mark_album_as_processing l i) (hid : r.id = i) :
    r.state = SynchronizedState.Processing := by
  rcases List.mem_map.mp hr with ⟨r0, _, hr0⟩
  by_cases h : r0.id == i
  · rw [if_pos h] at hr0
    rw [← hr0]
  · rw [if_neg h] at hr0
    subst hr0
    exact absurd (beq_iff_eq.mpr hid) h

/-- C1 counterexample: a claimed, non-materialized album whose single
track download fails ends the drain step still in state `Processing`, not
`Synchronized`: the code only marks `Synchronized` inside the per-track
success path. -/
theorem C1_counterexample :
    (drain_album envAllFail albumA [recA_P]).1 = [recA_P]
    ∧ recA_P.state = SynchronizedState.Processing
    ∧ envAllFail.isAlbumExistsInLibrary albumA = false
    ∧ (envAllFail.albumTracks albumA).any envAllFail.downloadTrackOk = false :=
  ⟨rfl, rfl, rfl, rfl⟩

/-- C1 amended: for a claimed album that is not already materialized, the
drain step ends with the album's ledger rows `Synchronized` iff at least
one of its track downloads succeeded (save failures do not matter); when
every track download fails — or the tracklist is empty — the rows stay
`Processing`. -/
theorem C1_amended (env : DrainEnv) (album : Album) (l : Ledger)
    (hmat : env.isAlbumExistsInLibrary album = false) :
    (drain_album env album l).1 =
      (if (env.albumTracks album).any env.downloadTrackOk then
        mark_album_as_synchronized (mark_album_as_processing l album.id) album.id
      else mark_album_as_processing l album.id)
    ∧ ∀ r ∈ (drain_album env album l).1, r.id = album.id →
        r.state =
          (if (env.albumTracks album).any env.downloadTrackOk then
            SynchronizedState.Synchronized
          else SynchronizedState.Processing) := by
  have hfst : (drain_album env album l).1 =
      (if (env.albumTracks album).any env.downloadTrackOk then
        mark_album_as_synchronized (mark_album_as_processing l album.id) album.id
      else mark_album_as_processing l album.id) := by
    simp only [drain_album, hmat, if_false, Bool.false_eq_true]
    exact drain_track_foldl_fst env album.id (env.albumTracks album) _ _
  refine ⟨hfst, ?_⟩
  intro r hr hid
  rw [hfst] at hr
  by_cases hany : (env.albumTracks album).any env.downloadTrackOk
  · rw [if_pos hany] at hr ⊢
    exact mem_mark_sync_state _ album.id r hr hid
  · rw [if_neg hany] at hr ⊢
    exact mem_mark_proc_state l album.id r hr hid

/-- C1 amended, witness: with one succeeding track download the claimed
album's row ends `Synchronized`. -/
theorem C1_amended_witness :
    (drain_album envOneOk albumA [recA_P]).1 =
      mark_album_as_synchronized (mark_album_as_processing [recA_P] albumA.id)
        albumA.id := by
  have h := (C1_amended envOneOk albumA [recA_P] rfl).1
  simpa using h

/-- C8: when the library reports the claimed album as already materialized,
the drain step performs no tracklist fetch, no downloads and no sink writes
(no events at all), leaves the whole ledger unchanged, and the album's rows
stay in the `Processing` state the claim put them in. -/
theorem C8_materialized_skip (env : DrainEnv) (l0 l : Ledger) (a : Album)
    (hclaim : get_next_to_synchronize_and_mark_as_processing l0 = (some a, l))
    (hmat : env.isAlbumExistsInLibrary a = true) :
    drain_album env a l = (l, [])
    ∧ ∀ r ∈ l, r.id = a.id → r.state = SynchronizedState.Processing := by
  constructor
  · simp [drain_album, hmat]
  · intro r hr hid
    cases hf : l0.find? (fun r => r.state == SynchronizedState.Requested) with
    | none =>
        simp only [get_next_to_synchronize_and_mark_as_processing, hf] at hclaim
        simp at hclaim
    | some r1 =>
        simp only [get_next_to_synchronize_and_mark_as_processing, hf,
          Prod.mk.injEq, Option.some.injEq] at hclaim
        obtain ⟨ha, hl⟩ := hclaim
        rw [← hl, ha] at hr
        exact mem_mark_proc_state l0 a.id r hr hid

/-- C8 witness: claiming `albumA` from a one-row `Requested` ledger and
finding it materialized leaves the row `Processing` and does nothing. -/
theorem C8_materialized_skip_witness :
    drain_album envMat albumA [recA_P] = ([recA_P], [])
    ∧ recA_P.state = SynchronizedState.Processing := by
  have h := C8_materialized_skip envMat [recA_R] [recA_P] albumA rfl rfl
  exact ⟨h.1, h.2 recA_P (by simp) rfl⟩

/-- C3: on a well-formed ledger the claim operation returns `none` exactly
when no `Requested` rows remain; when it returns an album it is the frozen
snapshot of a `Requested` row, that row is transitioned to `Processing` by
the single `mark_album_as_processing` update, and a second call cannot
return the same album again. -/
theorem C3_claim_next (l : Ledger) (hwf : WfLedger l) :
    ((get_next_to_synchronize_and_mark_as_processing l).1 = none ↔
      count_by_status l SynchronizedState.Requested = 0)
    ∧ ∀ a l2, get_next_to_synchronize_and_mark_as_processing l = (some a, l2) →
        (∃ r ∈ l, r.state = SynchronizedState.Requested ∧ r.details = a ∧
          r.id = a.id)
        ∧ l2 = mark_album_as_processing l a.id
        ∧ (∀ r ∈ l2, r.id = a.id → r.state = SynchronizedState.Processing)
        ∧ ∀ a2 l3,
            get_next_to_synchronize_and_mark_as_processing l2 = (some a2, l3) →
              a2.id ≠ a.id ∧ a2 ≠ a := by
  constructor
  · cases hf : l.find? (fun r => r.state == SynchronizedState.Requested) with
    | none =>
        have hall := List.find?_eq_none.mp hf
        constructor
        · intro _
          simp only [count_by_status, List.length_eq_zero,
            List.filter_eq_nil_iff]
          exact hall
        · intro _
          simp [get_next_to_synchronize_and_mark_as_processing, hf]
    | some r1 =>
        have hmem := List.mem_of_find?_eq_some hf
        have hp := List.find?_some hf
        constructor
        · intro hnone
          simp [get_next_to_synchronize_and_mark_as_processing, hf] at hnone
        · intro hcount
          simp only [count_by_status, List.length_eq_zero,
            List.filter_eq_nil_iff] at hcount
          exact absurd hp (hcount r1 hmem)
  · intro a l2 hclaim
    cases hf : l.find? (fun r => r.state == SynchronizedState.Requested) with
    | none =>
        simp only [get_next_to_synchronize_and_mark_as_processing, hf]
          at hclaim
        simp at hclaim
    | some r1 =>
        have hmem := List.mem_of_find?_eq_some hf
        have hp : r1.state = SynchronizedState.Requested := by
          simpa using List.find?_some hf
        simp only [get_next_to_synchronize_and_mark_as_processing, hf,
          Prod.mk.injEq, Option.some.injEq] at hclaim
        obtain ⟨ha, hl⟩ := hclaim
        have hida : a.id = r1.id := by rw [← ha]; exact hwf.2 r1 hmem
        have hl2 : l2 = mark_album_as_processing l a.id := by
          rw [← hl, ha]
        refine ⟨⟨r1, hmem, hp, ha, hida.symm⟩, hl2, ?_, ?_⟩
        · intro r hr hid
          rw [hl2] at hr
          exact mem_mark_proc_state l a.id r hr hid
        · intro a2 l3 hclaim2
          cases hf2 : l2.find? (fun r => r.state == SynchronizedState.Requested) with
          | none =>
              simp only [get_next_to_synchronize_and_mark_as_processing, hf2]
                at hclaim2
              simp at hclaim2
          | some r2 =>
              have hmem2 := List.mem_of_find?_eq_some hf2
              have hp2 : r2.state = SynchronizedState.Requested := by
                simpa using List.find?_some hf2
              simp only [get_next_to_synchronize_and_mark_as_processing, hf2,
                Prod.mk.injEq, Option.some.injEq] at hclaim2
              obtain ⟨ha2, _⟩ := hclaim2
              rw [hl2] at hmem2
              rcases List.mem_map.mp hmem2 with ⟨r0, hr0, hr0eq⟩
              by_cases h0 : r0.id == a.id
              · rw [if_pos h0] at hr0eq
                rw [← hr0eq] at hp2
                exact absurd hp2 (by simp)
              · rw [if_neg h0] at hr0eq
                have hne : r2.id ≠ a.id := by
                  rw [← hr0eq]
                  intro heq; exact h0 (beq_iff_eq.mpr heq)
                have hid2 : a2.id = r2.id := by
                  rw [← ha2, ← hr0eq]
                  exact hwf.2 r0 hr0
                refine ⟨by rw [hid2]; exact hne, ?_⟩
                intro heq
                rw [heq] at hid2
                exact hne hid2.symm

/-- C3 witness: claiming from the one-`Requested`-row ledger transitions
that row to `Processing` via the single-row update. -/
theorem C3_claim_next_witness :
    [recA_P] = mark_album_as_processing [recA_R] albumA.id :=
  (((C3_claim_next [recA_R]
      ⟨by simp, by intro r hr; simp at hr; subst hr; rfl⟩).2
    albumA [recA_P] rfl).2).1

/-- Helper: discovery only appends rows, and every appended row's id was
absent from the starting ledger. -/
theorem phase2_discover_extends :
    ∀ (favs : List Album) (l : Ledger),
      ∃ ext, phase2_discover l favs = l ++ ext ∧
        ∀ r ∈ ext, ∀ r0 ∈ l, r.id ≠ r0.id := by
  intro favs
  induction favs with
  | nil => intro l; exact ⟨[], by simp [phase2_discover], by simp⟩
  | cons a favs ih =>
      intro l
      by_cases hex : is_album_exists l a
      · obtain ⟨ext, h1, h2⟩ := ih l
        refine ⟨ext, ?_, h2⟩
        simpa [phase2_discover, hex] using h1
      · obtain ⟨ext1, h1, h2⟩ := ih (request_favourite_album l a)
        have habs : ∀ r0 ∈ l, r0.id ≠ a.id := by
          simpa [is_album_exists] using hex
        refine ⟨{ id := a.id, state := .Requested, details := a } :: ext1, ?_, ?_⟩
        · have : phase2_discover l (a :: favs) =
              phase2_discover (request_favourite_album l a) favs := by
            simp [phase2_discover, hex]
          rw [this, h1, request_favourite_album, List.append_assoc]
          rfl
        · intro r hr r0 hr0
          rcases List.mem_cons.mp hr with rfl | hr
          · exact fun heq => habs r0 hr0 heq.symm
          · exact h2 r hr r0 (by simp [request_favourite_album, hr0])

/-- Helper: discovery preserves uniqueness of ledger ids. -/
theorem phase2_discover_nodup :
    ∀ (favs : List Album) (l : Ledger),
      (l.map (fun r => r.id)).Nodup →
      ((phase2_discover l favs).map (fun r => r.id)).Nodup := by
  intro favs
  induction favs with
  | nil => intro l h; simpa [phase2_discover] using h
  | cons a favs ih =>
      intro l h
      by_cases hex : is_album_exists l a
      · have heq : phase2_discover l (a :: favs) = phase2_discover l favs := by
          simp [phase2_discover, hex]
        rw [heq]
        exact ih l h
      · have heq : phase2_discover l (a :: favs) =
            phase2_discover (request_favourite_album l a) favs := by
          simp [phase2_discover, hex]
        rw [heq]
        refine ih (request_favourite_album l a) ?_
        have hall : ∀ x ∈ l, ¬x.id = a.id := by
          simpa [is_album_exists] using hex
        have habs : a.id ∉ l.map (fun r => r.id) := by
          intro hmem
          rcases List.mem_map.mp hmem with ⟨r0, hr0, hid⟩
          exact hall r0 hr0 hid
        simp only [request_favourite_album, List.map_append]
        exact List.Nodup.append h (List.nodup_singleton _)
          (by intro x hx hx2; simp at hx2; subst hx2; exact habs hx)

/-- Helper: the state updates leave the list of row ids unchanged — they
never create or delete rows. -/
theorem mark_proc_map_id (l : Ledger) (i : String) :
    (mark_album_as_processing l i).map (fun r => r.id) =
      l.map (fun r => r.id) := by
  induction l with
  | nil => rfl
  | cons r rest ih =>
      simp only [mark_album_as_processing, List.map_cons] at ih ⊢
      refine congrArg₂ List.cons ?_ ih
      by_cases h : r.id == i <;> simp [h]

/-- Helper: `mark_album_as_synchronized` leaves the list of row ids
unchanged. -/
theorem mark_sync_map_id (l : Ledger) (i : String) :
    (mark_album_as_synchronized l i).map (fun r => r.id) =
      l.map (fun r => r.id) := by
  induction l with
  | nil => rfl
  | cons r rest ih =>
      simp only [mark_album_as_synchronized, List.map_cons] at ih ⊢
      refine congrArg₂ List.cons ?_ ih
      by_cases h : r.id == i <;> simp [h]

/-- C4: on a ledger with unique row ids, re-running Phase 2 discovery with
any favourites list only appends rows (never deletes), keeps the row ids
unique (at most one SyncRecord per album id), creates no second row for
any id already present in any state, and the state-update operations
preserve the set of rows. -/
theorem C4_single_record (l : Ledger) (favs : List Album)
    (hids : (l.map (fun r => r.id)).Nodup) :
    (∃ ext, phase2_discover l favs = l ++ ext)
    ∧ ((phase2_discover l favs).map (fun r => r.id)).Nodup
    ∧ (∀ i, i ∈ l.map (fun r => r.id) →
        ((phase2_discover l favs).filter (fun r => r.id == i)).length =
          (l.filter (fun r => r.id == i)).length)
    ∧ (∀ i, (mark_album_as_processing l i).map (fun r => r.id) =
        l.map (fun r => r.id))
    ∧ (∀ i, (mark_album_as_synchronized l i).map (fun r => r.id) =
        l.map (fun r => r.id)) := by
  obtain ⟨ext, h1, h2⟩ := phase2_discover_extends favs l
  refine ⟨⟨ext, h1⟩, phase2_discover_nodup favs l hids, ?_,
    fun i => mark_proc_map_id l i, fun i => mark_sync_map_id l i⟩
  intro i hi
  rcases List.mem_map.mp hi with ⟨r0, hr0, hid0⟩
  have hextnil : ext.filter (fun r => r.id == i) = [] := by
    rw [List.filter_eq_nil_iff]
    intro r hr
    have hne : r.id ≠ r0.id := h2 r hr r0 hr0
    intro hbeq
    exact hne (by rw [beq_iff_eq.mp hbeq, hid0])
  rw [h1, List.filter_append, hextnil, List.append_nil]

/-- C4 witness: discovering `albumA` (already present) and `albumB` keeps
ids unique and does not duplicate the `albumA` row. -/
theorem C4_single_record_witness :
    ((phase2_discover [recA_R] [albumA, albumB]).map (fun r => r.id)).Nodup :=
  (C4_single_record [recA_R] [albumA, albumB] (by simp)).2.1

/-- Helper: one polling round emits only token polls carrying the round's
device code, and at most `n` of them. -/
theorem poll_loop_spec (auth : DeviceAuthorization) (pollOk : Nat → Bool) :
    ∀ n start,
      (∀ e ∈ (poll_loop auth pollOk start n).1,
        e = SessionEvent.tokenPoll auth.device_code)
      ∧ (poll_loop auth pollOk start n).1.length ≤ n := by
  intro n
  induction n with
  | zero => intro start; simp [poll_loop]
  | succ n ih =>
      intro start
      by_cases h : pollOk start
      · simp [poll_loop, h]
      · have hrec := ih (start + 1)
        simp only [poll_loop, h, if_false, Bool.false_eq_true]
        constructor
        · intro e he
          rcases List.mem_cons.mp he with rfl | he
          · rfl
          · exact hrec.1 e he
        · simpa using Nat.succ_le_succ hrec.2

/-- Helper: every event `wait_for_link` ever emits — across all its retry
rounds — is a token poll with the one device code it was given. -/
theorem wait_for_link_events (auth : DeviceAuthorization) (pollOk : Nat → Bool) :
    ∀ fuel start, ∀ e ∈ (wait_for_link auth pollOk fuel start).1,
      e = SessionEvent.tokenPoll auth.device_code := by
  intro fuel
  induction fuel with
  | zero => intro start e he; simp [wait_for_link] at he
  | succ fuel ih =>
      intro start e he
      cases hp : poll_loop auth pollOk start 60 with
      | mk evs b =>
          rw [wait_for_link, hp] at he
          have hevs : ∀ x ∈ evs, x = SessionEvent.tokenPoll auth.device_code := by
            have h1 := (poll_loop_spec auth pollOk 60 start).1
            rw [hp] at h1
            exact h1
          cases b with
          | true => exact hevs e he
          | false =>
              rcases List.mem_append.mp he with h1 | h1
              · exact hevs e h1
              · exact ih (start + 60) e h1

/-- C9 amended: the handshake issues exactly one device authorization; when
a 60-poll round is exhausted, `wait_for_link` recurses into itself with the
same device code (every poll it ever performs carries that one code, and no
fresh device authorization is requested), with at most 60 polls per round. -/
theorem C9_amended (auth : DeviceAuthorization) (pollOk : Nat → Bool)
    (fuel start : Nat) :
    (setup auth pollOk fuel).1.count SessionEvent.deviceAuthRequest = 1
    ∧ (∀ e ∈ (wait_for_link auth pollOk fuel start).1,
        e = SessionEvent.tokenPoll auth.device_code)
    ∧ (poll_loop auth pollOk start 60).1.length ≤ 60 := by
  refine ⟨?_, wait_for_link_events auth pollOk fuel start,
    (poll_loop_spec auth pollOk 60 start).2⟩
  have hnot : SessionEvent.deviceAuthRequest ∉ (wait_for_link auth pollOk fuel 0).1 := by
    intro hmem
    have := wait_for_link_events auth pollOk fuel 0 _ hmem
    exact absurd this (by simp)
  have h0 : (wait_for_link auth pollOk fuel 0).1.count
      SessionEvent.deviceAuthRequest = 0 := List.count_eq_zero.mpr hnot
  simp [setup, List.count_cons_self, h0]

/-- C9 amended, witness: with always-failing polls and two rounds of fuel,
the trace holds exactly one device-authorization request. -/
theorem C9_amended_witness :
    (setup auth0 (fun _ => false) 2).1.count SessionEvent.deviceAuthRequest = 1 :=
  (C9_amended auth0 (fun _ => false) 2 0).1

set_option maxRecDepth 10000 in
/-- C9 counterexample: with every poll failing, two full 60-poll rounds
run (120 polls), all with the original device code `dc-0`, and still only
one device authorization is ever requested — exhaustion does not issue a
fresh verification link and device code. -/
theorem C9_counterexample :
    ((setup auth0 (fun _ => false) 2).1.length = 121)
    ∧ ((setup auth0 (fun _ => false) 2).1.count SessionEvent.deviceAuthRequest = 1)
    ∧ ((setup auth0 (fun _ => false) 2).1.count (SessionEvent.tokenPoll "dc-0") = 120)
    ∧ (setup auth0 (fun _ => false) 2).2 = false := by
  refine ⟨by decide, by decide, by decide, by decide⟩

end MelodyMagnet
